import Mathlib

set_option maxRecDepth 4000

/-!
Shallow embedding of the BBC news scraper, from the two scripts of the
repository: src/app/index.js and src/unnamed/part_000.  Pure string
transformations are translated directly; page lookups (Playwright
page.$eval / page.$$eval calls) are modelled as Option-valued inputs,
none standing for a lookup that threw; the ambient clock and RNG
(Date.now, Math.random, new Date().toISOString, cuid) are explicit
parameters.
-/

/-- Split a character list at every character satisfying `p`, keeping
empty groups, as JS String.prototype.split does: the empty list yields
one empty group. -/
def splitPred (p : Char → Bool) : List Char → List (List Char)
  | [] => [[]]
  | c :: cs =>
    let rest := splitPred p cs
    if p c then [] :: rest
    else
      match rest with
      | g :: gs => (c :: g) :: gs
      | [] => [[c]]

/-- JS `s.split(' ')`: split on single space characters, keeping empty
chunks. -/
def jsSplitSpace (s : String) : List String :=
  (splitPred (fun c => c == ' ') s.data).map String.mk

/-- JS `parts.join(sep)`. -/
def joinWith (sep : String) : List String → String
  | [] => ""
  | [s] => s
  | s :: r :: rs => s ++ sep ++ joinWith sep (r :: rs)

/-- JS `s.toLowerCase()`, on the ASCII range (the scraper strips
non-ASCII letters right after lowering, so only the ASCII mapping is
observable). -/
def jsToLower (s : String) : String :=
  String.mk (s.data.map Char.toLower)

/-- JS `s.trim()`: strip leading and trailing whitespace. -/
def jsTrim (s : String) : String :=
  String.mk (((s.data.dropWhile Char.isWhitespace).reverse.dropWhile Char.isWhitespace).reverse)

/-- The fixed placeholder image URL used as the media default in both
scripts. -/
def defaultImg : String :=
  "https://news.bbc.co.uk/nol/shared/img/bbc_news_120x60.gif"

/-- The citation block appended by both processBody variants:
`<br><br><ul><li><a href='LINK'>Visit RESOURCE</a></li></ul>`. -/
def cite (link resource : String) : String :=
  "<br><br><ul><li><a href=\x27" ++ link ++ "\x27>Visit " ++ resource ++ "</a></li></ul>"

/-- processBody of src/app/index.js lines 7-21.  `body` is Option to model
the JS `body !== null` test (none = null); a JS string is falsy exactly
when empty, modelled by the `!= ""` tests. -/
def processBody (body : Option String) (link : String)
    (resource : String := "BBC News") : String :=
  let formattedBody : String :=
    match body with
    | some b => "<p>" ++ b ++ "</p>" ++ cite link resource
    | none => ""
  let bodyTruthy : Bool :=
    match body with
    | some b => b != ""
    | none => false
  if link != "" && !bodyTruthy then
    formattedBody ++ cite link resource
  else if link == "" && !bodyTruthy then
    ""
  else
    formattedBody

/-- processBody of src/unnamed/part_000 lines 8-12: wraps each paragraph
in `<p>..</p>` and unconditionally appends the citation block. -/
def processBodyP (paragraphs : List String) (link : String)
    (resource : String := "BBC News") : String :=
  String.join (paragraphs.map (fun p => "<p>" ++ p ++ "</p>")) ++ cite link resource

/-- Whether a character survives the JS replace of /[^a-z]/g. -/
def isLowerAZ (c : Char) : Bool :=
  decide (Char.ofNat 97 ≤ c) && decide (c ≤ Char.ofNat 122)

/-- The expression `headline.split(' ').slice(0, 3).join('').toLowerCase().replace(/[^a-z]/g, '')`,
the base slug shared by src/app/index.js line 70 and generateSlug of
src/unnamed/part_000 line 44. -/
def baseSlug (headline : String) : String :=
  String.mk ((jsToLower (joinWith "" ((jsSplitSpace headline).take 3))).data.filter isLowerAZ)

/-- The slug of src/app/index.js line 70: the base slug with no
disambiguating suffix. -/
def slugIndex (headline : String) : String :=
  baseSlug headline

/-- generateSlug of src/unnamed/part_000 lines 43-47.  The source
computes `uniquePart` from Date.now and Math.random (ambient clock/RNG
state); it is passed here as a parameter.  The `link` argument of the
source is ignored by its own body and omitted. -/
def generateSlug (headline : String) (uniquePart : String) : String :=
  baseSlug headline ++ "-" ++ uniquePart

/-- A raw listing item: the card headline text (h2 innerText, before
trim) and the href attribute of the link. -/
structure RawItem where
  headline : String
  href : String

/-- A candidate entry produced by the listing collector. -/
structure Cand where
  headline : String
  link : String
  slug : String

/-- The $$eval mapping of src/app/index.js lines 66-73: trim the
headline, prefix the href with the site origin, and derive the slug from
the headline with no per-entry suffix. -/
def collectCandidates (items : List RawItem) : List Cand :=
  items.map (fun it =>
    { headline := jsTrim it.headline
      link := "https://www.bbc.com" ++ jsTrim it.href
      slug := slugIndex (jsTrim it.headline) })

/-- The video element as seen by extractMedia of src/unnamed/part_000:
its poster attribute (none = attribute absent) and the src of its inner
img child (none = no such child). -/
structure VideoEl where
  poster : Option String
  innerImgSrc : Option String

/-- The media-related lookups a page can answer.  A `none` field means
the corresponding $eval found no element (and hence threw). -/
structure MediaPage where
  holdingImgSrc : Option String
  genericImgSrc : Option String
  videoEl : Option VideoEl

/-- extractMainImage (src/app/index.js lines 190-198 and
src/unnamed/part_000 lines 15-23): `$eval('img', img => img.src)`,
returning the placeholder when the lookup throws. -/
def extractMainImage (p : MediaPage) : String :=
  match p.genericImgSrc with
  | some s => s
  | none => defaultImg

/-- extractMedia of src/unnamed/part_000 lines 26-40.  When the
`img.p_holding_image` lookup throws (element absent) the catch returns
the placeholder; the video fallback runs only when that element exists
with a falsy (empty) src; `poster || img?.src` picks the poster when
truthy, else the inner img src; a falsy final value becomes the
placeholder. -/
def extractMedia (p : MediaPage) : String :=
  match p.holdingImgSrc with
  | none => defaultImg
  | some src =>
    if src != "" then src
    else
      match p.videoEl with
      | none => defaultImg
      | some v =>
        let second : Option String :=
          match v.poster with
          | some po => if po != "" then some po else v.innerImgSrc
          | none => v.innerImgSrc
        match second with
        | some u => if u != "" then u else defaultImg
        | none => defaultImg

/-- The record inserted into the "Article" table (its ten columns). -/
structure ArticleRecord where
  id : String
  slug : String
  headline : String
  summary : String
  body : String
  author : String
  resource : String
  media : String
  link : String
  date : String

/-- The page lookups of one successful navigation in src/app/index.js:
`bodyText` is the article innerText after element removal (none = the
$eval threw), `authorText` the byline text, `parsedDate` the result of
`new Date(rawDate).toISOString()` when the time-element lookup and the
conversion both succeed (none = either threw). -/
structure PageData where
  bodyText : Option String
  authorText : Option String
  media : MediaPage
  parsedDate : Option String

/-- The summary derivation of src/app/index.js lines 113-118:
`body.split(' ').slice(0, 25).join(' ') + '...'` when the body is
truthy, else the empty string.  JS split(' ') splits on single spaces
only. -/
def spaceSummary (body : String) : String :=
  if body != "" then joinWith " " ((jsSplitSpace body).take 25) ++ "..."
  else ""

/-- The summary derivation of src/unnamed/part_000 line 133:
`paragraphs.join(' ').split(' ').slice(0, 25).join(' ') + '...'`. -/
def partSummary (ps : List String) : String :=
  joinWith " " ((jsSplitSpace (joinWith " " ps)).take 25) ++ "..."

/-- The per-attempt record assembly of src/app/index.js lines 93-167:
the body default is the empty string, the summary is derived from the
raw body, the stored body is the processBody wrapping, and author,
media, date fall back to their fixed defaults.  `id` is the cuid of this
attempt. -/
def assembleIndex (e : Cand) (p : PageData) (id : String) : ArticleRecord :=
  let rawBody := p.bodyText.getD ""
  { id := id
    slug := e.slug
    headline := e.headline
    summary := spaceSummary rawBody
    body := processBody (some rawBody) e.link
    author := p.authorText.getD "See article for details"
    resource := "BBC News"
    media := extractMainImage p.media
    link := e.link
    date := p.parsedDate.getD "" }

/-- The page lookups of one successful navigation in
src/unnamed/part_000: `paragraphs` is the $$eval text-block result
(none = the $$eval threw; some [] = it matched nothing). -/
structure PageDataP where
  paragraphs : Option (List String)
  authorText : Option String
  media : MediaPage

/-- The per-attempt record assembly of src/unnamed/part_000 lines
127-160: body and summary are both derived from the paragraph list
(both defaulting to the empty string when the lookup throws), the author
fallback carries the source's spelling, and the date is always
`new Date().toISOString()` — the ambient clock, passed as `now`. -/
def assemblePart (e : Cand) (p : PageDataP) (id now : String) : ArticleRecord :=
  let bs : String × String :=
    match p.paragraphs with
    | some ps => (processBodyP ps e.link, partSummary ps)
    | none => ("", "")
  { id := id
    slug := e.slug
    headline := e.headline
    summary := bs.2
    body := bs.1
    author := p.authorText.getD "See article for deatails"
    resource := "BBC News"
    media := extractMainImage p.media
    link := e.link
    date := now }

/-- Outcome of one attempt of the retry loop: navigation threw; or
navigation and every (individually caught) extraction completed with
page data `p` but the database insert threw; or everything up to and
including the insert succeeded. -/
inductive AttemptOutcome where
  | navFail : AttemptOutcome
  | insertFail : PageData → AttemptOutcome
  | ok : PageData → AttemptOutcome

/-- The body of the while loop of src/app/index.js lines 84-177 for one
attempt: the row reaches the database exactly when the attempt ends in
`ok`, and the row is the record assembled from that attempt's page
data. -/
def attemptResult (e : Cand) (id : String) : AttemptOutcome → Option ArticleRecord
  | AttemptOutcome.navFail => none
  | AttemptOutcome.insertFail _ => none
  | AttemptOutcome.ok p => some (assembleIndex e p id)

/-- The while loop `while (!success && attempts < maxAttempts)` of
src/app/index.js lines 84-177, with `fuel = maxAttempts - attempts`
remaining iterations; `out n` is the outcome of attempt number n and
`ids n` the cuid drawn during attempt n.  Returns the inserted row (if
any) and the final value of `attempts`. -/
def retryFrom (e : Cand) (ids : Nat → String) (out : Nat → AttemptOutcome) :
    Nat → Nat → Option ArticleRecord × Nat
  | 0, attempts => (none, attempts)
  | fuel + 1, attempts =>
    match attemptResult e (ids (attempts + 1)) (out (attempts + 1)) with
    | some r => (some r, attempts + 1)
    | none => retryFrom e ids out fuel (attempts + 1)

/-- `const maxAttempts = 3` of src/app/index.js line 82. -/
def maxAttempts : Nat := 3

/-- Processing of one candidate entry: the retry loop started at
`attempts = 0` with the full attempt budget. -/
def processEntry (e : Cand) (ids : Nat → String) (out : Nat → AttemptOutcome) :
    Option ArticleRecord × Nat :=
  retryFrom e ids out maxAttempts 0

/-- The for-loop of src/app/index.js lines 77-178: candidates processed
in order, each one's inserted row (if its loop succeeded) appended to
the datastore in order. -/
def runBatch (cands : List Cand) (ids : Cand → Nat → String)
    (out : Cand → Nat → AttemptOutcome) : List ArticleRecord :=
  cands.filterMap (fun c => (processEntry c (ids c) (out c)).1)

/-- One whole job against datastore state `db`: the
`DELETE FROM "Article" WHERE resource = 'BBC News'` sweep of line 33,
then the run's inserts. -/
def runJob (db : List ArticleRecord) (cands : List Cand)
    (ids : Cand → Nat → String) (out : Cand → Nat → AttemptOutcome) :
    List ArticleRecord :=
  db.filter (fun r => r.resource != "BBC News") ++ runBatch cands ids out

/-- Modelled from the spec: the summary as the spec words it — "takes
the first 25 whitespace-delimited tokens, joins them, appends an
ellipsis marker.  If body is empty, summary is empty."  Stated only for
comparison with the source's single-space-splitting derivation. -/
def specSummary (body : String) : String :=
  if body = "" then ""
  else
    joinWith " " ((((splitPred Char.isWhitespace body.data).map String.mk).filter
      (fun t => t != "")).take 25) ++ "..."

/-! Concrete fixtures shared by the examples below. -/

/-- A media page answering none of the lookups. -/
def noMedia : MediaPage :=
  { holdingImgSrc := none, genericImgSrc := none, videoEl := none }

/-- A concrete candidate entry. -/
def candEx : Cand :=
  { headline := "Breaking News Today"
    link := "https://www.bbc.com/news/a"
    slug := "breakingnewstoday" }

/-- An index.js article page on which every lookup throws. -/
def noPage : PageData :=
  { bodyText := none, authorText := none, media := noMedia, parsedDate := none }

/-- A part_000 article page on which every lookup throws. -/
def noPageP : PageDataP :=
  { paragraphs := none, authorText := none, media := noMedia }

/-! Helper lemmas on the embedded string operations. -/

theorem str_append_left_cancel {a b c : String} (h : a ++ b = a ++ c) : b = c := by
  have hd := congrArg String.data h
  rw [String.data_append, String.data_append] at hd
  exact String.ext (List.append_cancel_left hd)

theorem str_empty_append (s : String) : "" ++ s = s :=
  String.ext (by rw [String.data_append]; rfl)

theorem processBody_empty_eq (link : String) (hl : link ≠ "") :
    processBody (some "") link
      = "<p></p>" ++ cite link "BBC News" ++ cite link "BBC News" := by
  have h1 : (link != "") = true := bne_iff_ne.mpr hl
  have h2 : (("" : String) != "") = false := by decide
  simp only [processBody, h1, h2, Bool.not_false, Bool.and_self, if_true]
  rw [show ("<p>" ++ "" ++ "</p>" : String) = "<p></p>" from rfl]

/-- C1, counterexample: in the src/app/index.js variant the slug carries
no per-call disambiguating suffix, so two candidate entries of the same
run with byte-identical headlines (here with different links) receive
the same slug, and the slug list of the run is not duplicate-free. -/
theorem C1_counterexample :
    ((collectCandidates
        [{ headline := "Breaking News Today", href := "/news/articles/a" },
         { headline := "Breaking News Today", href := "/news/articles/b" }]).map
      (fun c => c.slug)) = ["breakingnewstoday", "breakingnewstoday"] ∧
    ¬ (((collectCandidates
        [{ headline := "Breaking News Today", href := "/news/articles/a" },
         { headline := "Breaking News Today", href := "/news/articles/b" }]).map
      (fun c => c.slug)).Nodup) := by
  constructor
  · decide
  · decide

/-- C1, amended: only the src/unnamed/part_000 variant (generateSlug)
disambiguates identical headlines, and only because the time+random
suffix differs between the two calls: whenever the drawn suffixes
differ, the generated slugs differ. -/
theorem C1_generateSlug_distinct (h u1 u2 : String) (hne : u1 ≠ u2) :
    generateSlug h u1 ≠ generateSlug h u2 := by
  intro heq
  simp only [generateSlug] at heq
  exact hne (str_append_left_cancel heq)

/-- C1, witness for the amended theorem at concrete suffixes. -/
theorem C1_generateSlug_distinct_witness :
    generateSlug "Breaking News Today" "m1aaa11111" ≠ generateSlug "Breaking News Today" "m1aaa22222" :=
  C1_generateSlug_distinct "Breaking News Today" "m1aaa11111" "m1aaa22222" (by decide)

/-- C2, counterexample: in src/app/index.js, when the body extractor
fails the empty-string default is then wrapped by processBody, so the
assembled record's body is the (doubled) citation block, not the empty
string the claim documents as the body default. -/
theorem C2_counterexample :
    (assembleIndex candEx noPage "cid0001").body =
      "<p></p>" ++ cite "https://www.bbc.com/news/a" "BBC News"
        ++ cite "https://www.bbc.com/news/a" "BBC News" ∧
    (assembleIndex candEx noPage "cid0001").body ≠ "" := by
  constructor
  · decide
  · decide

/-- C2, amended: every field of an assembled record is a present string;
on total extractor failure, author is the fixed fallback string (with
the source's spelling per variant), media is the fixed placeholder URL,
summary is the empty string, and date is the empty string in index.js —
but in part_000 date is always the ambient clock value, and in index.js
the stored body is the processBody wrapping of the empty default rather
than the empty string itself (part_000 does store the empty string). -/
theorem C2_defaults (e : Cand) (id now : String) :
    (assembleIndex e noPage id).author = "See article for details" ∧
    (assembleIndex e noPage id).media = defaultImg ∧
    (assembleIndex e noPage id).date = "" ∧
    (assembleIndex e noPage id).summary = "" ∧
    (assembleIndex e noPage id).body = processBody (some "") e.link ∧
    (assemblePart e noPageP id now).author = "See article for deatails" ∧
    (assemblePart e noPageP id now).media = defaultImg ∧
    (assemblePart e noPageP id now).body = "" ∧
    (assemblePart e noPageP id now).summary = "" ∧
    (assemblePart e noPageP id now).date = now :=
  ⟨rfl, rfl, rfl, rfl, rfl, rfl, rfl, rfl, rfl, rfl⟩

/-- C8, counterexample: the src/unnamed/part_000 body-wrapping transform
appends the citation block unconditionally, so with an empty paragraph
list and an empty link the output is the citation block with an empty
href, not the empty string. -/
theorem C8_counterexample :
    processBodyP [] "" = cite "" "BBC News" ∧ cite "" "BBC News" ≠ "" := by
  constructor
  · decide
  · decide

/-- C8, amended: the index.js transform behaves as claimed — with an
empty body and a non-empty link the output contains the citation block
for the link, and with both empty the output is empty — while the
part_000 transform returns the citation block (with whatever href) even
when both the paragraph list and the link are empty. -/
theorem C8_empty_body (link : String) (hl : link ≠ "") :
    (∃ a b, processBody (some "") link = a ++ cite link "BBC News" ++ b) ∧
    processBody (some "") "" = "" ∧
    (∀ l, processBodyP [] l = cite l "BBC News") := by
  refine ⟨⟨"<p></p>", cite link "BBC News", processBody_empty_eq link hl⟩, by decide, fun l => ?_⟩
  show String.join [] ++ cite l "BBC News" = cite l "BBC News"
  exact str_empty_append (cite l "BBC News")

/-- C8, witness for the amended theorem at a concrete link. -/
theorem C8_empty_body_witness :
    ∃ a b, processBody (some "") "https://www.bbc.com/news/x" =
      a ++ cite "https://www.bbc.com/news/x" "BBC News" ++ b :=
  (C8_empty_body "https://www.bbc.com/news/x" (by decide)).1

/-- C10: in the index.js variant of processBody, an empty (non-null)
body with a non-empty link yields the empty paragraph element followed
by the citation block twice — once appended by the wrapping branch and
once by the empty-body branch. -/
theorem C10_double_citation (link : String) (hl : link ≠ "") :
    processBody (some "") link
      = "<p></p>" ++ cite link "BBC News" ++ cite link "BBC News" :=
  processBody_empty_eq link hl

/-- C10, witness at a concrete link. -/
theorem C10_double_citation_witness :
    processBody (some "") "https://www.bbc.com/news/articles/x1"
      = "<p></p>" ++ cite "https://www.bbc.com/news/articles/x1" "BBC News"
        ++ cite "https://www.bbc.com/news/articles/x1" "BBC News" :=
  C10_double_citation "https://www.bbc.com/news/articles/x1" (by decide)

/-- A page whose only media signal is a video poster: no
img.p_holding_image element, no generic img element. -/
def posterOnlyPage : MediaPage :=
  { holdingImgSrc := none
    genericImgSrc := none
    videoEl := some { poster := some "https://poster.example/p.jpg", innerImgSrc := none } }

/-- C5, counterexample: on a page exposing no primary image but a video
poster, the ingestion extractor (extractMainImage) returns the
placeholder, and even the uncalled extractMedia helper returns the
placeholder — its video fallback is unreachable when the primary lookup
throws — so neither returns the secondary signal. -/
theorem C5_counterexample :
    extractMainImage posterOnlyPage = defaultImg ∧
    extractMedia posterOnlyPage = defaultImg ∧
    defaultImg ≠ "https://poster.example/p.jpg" := by
  refine ⟨rfl, rfl, by decide⟩

/-- C5, amended: ingestion uses the single-stage extractMainImage; the
two-stage chain exists only in the uncalled extractMedia helper, whose
secondary (video) stage is consulted only when the primary image element
exists with an empty src — in that case a non-empty poster is returned —
while a page with no primary image element always yields the
placeholder, whatever video signal it exposes. -/
theorem C5_fallback (g : Option String) (v : VideoEl) (s : String)
    (hp : v.poster = some s) (hs : s ≠ "") :
    extractMedia { holdingImgSrc := some "", genericImgSrc := g, videoEl := some v } = s ∧
    (∀ vid g2, extractMedia { holdingImgSrc := none, genericImgSrc := g2, videoEl := vid }
      = defaultImg) := by
  constructor
  · have h1 : (s != "") = true := bne_iff_ne.mpr hs
    simp [extractMedia, hp, h1]
  · intro vid g2
    rfl

/-- C5, witness for the amended theorem at a concrete page. -/
theorem C5_fallback_witness :
    extractMedia
      { holdingImgSrc := some "", genericImgSrc := none,
        videoEl := some { poster := some "https://poster.example/q.jpg", innerImgSrc := none } }
      = "https://poster.example/q.jpg" :=
  (C5_fallback none { poster := some "https://poster.example/q.jpg", innerImgSrc := none }
    "https://poster.example/q.jpg" rfl (by decide)).1

/-- A part_000 article page with paragraphs and a byline. -/
def richPageP : PageDataP :=
  { paragraphs := some ["Para one.", "Para two."]
    authorText := some "Jane Doe"
    media := noMedia }

/-- C6, counterexample: the src/unnamed/part_000 variant stores
`new Date().toISOString()` — the ambient clock at scrape time — as the
date of every article, whatever the page contains (same value on a page
answering nothing and on a page with content), and that value is not the
empty-string sentinel: the stored date is fabricated rather than parsed
from the page or left empty. -/
theorem C6_counterexample :
    (assemblePart candEx noPageP "cid0002" "2026-10-11T12:00:00.000Z").date
        = "2026-10-11T12:00:00.000Z" ∧
    (assemblePart candEx richPageP "cid0002" "2026-10-11T12:00:00.000Z").date
        = "2026-10-11T12:00:00.000Z" ∧
    ("2026-10-11T12:00:00.000Z" : String) ≠ "" :=
  ⟨rfl, rfl, by decide⟩

/-- C6, amended: in the src/app/index.js variant the stored date is
either the parsed page timestamp or the empty-string sentinel, as
claimed; in the src/unnamed/part_000 variant the stored date is always
the run's current-clock ISO string, independent of the page. -/
theorem C6_date_policy (e : Cand) (p : PageData) (pp : PageDataP) (id now : String) :
    ((assembleIndex e p id).date = "" ∨ p.parsedDate = some ((assembleIndex e p id).date)) ∧
    (assemblePart e pp id now).date = now := by
  constructor
  · cases hp : p.parsedDate with
    | none => left; simp [assembleIndex, hp]
    | some d => right; simp [assembleIndex, hp]
  · rfl

/-- An index.js article page on which every lookup succeeds. -/
def pageEx : PageData :=
  { bodyText := some "Body text here"
    authorText := some "Jane Doe"
    media := noMedia
    parsedDate := some "2024-01-01T00:00:00.000Z" }

/-- C7, counterexample: the retry try block of src/app/index.js encloses
the database insert, so an attempt whose navigation and extraction all
succeed but whose insert throws still increments the attempt counter and
is re-attempted: here attempt 1 ends in insertFail and the loop finishes
on attempt 2. -/
theorem C7_counterexample :
    (processEntry candEx (fun _ => "cid0003")
        (fun n => if n = 1 then AttemptOutcome.insertFail pageEx else AttemptOutcome.ok pageEx)).2
      = 2 := by
  rfl

/-- C7, amended: a retry is caused exactly by a navigation failure or by
an insert failure, never by the field extractors: an attempt whose
navigation and insert succeed succeeds for every extraction outcome
(even all-failed extractors), and when the first attempt's outcome is
`ok` the loop stops after one attempt. -/
theorem C7_retry_causes (e : Cand) (id : String) (p q : PageData) (ids : Nat → String) :
    attemptResult e id (AttemptOutcome.ok p) = some (assembleIndex e p id) ∧
    attemptResult e id AttemptOutcome.navFail = none ∧
    attemptResult e id (AttemptOutcome.insertFail q) = none ∧
    processEntry e ids (fun _ => AttemptOutcome.ok p) = (some (assembleIndex e p (ids 1)), 1) :=
  ⟨rfl, rfl, rfl, rfl⟩

/-- A part_000 article page whose paragraph lookup succeeds with no
matches. -/
def emptyParasPageP : PageDataP :=
  { paragraphs := some [], authorText := none, media := noMedia }

/-- An index.js article page whose body contains a newline inside a
space-delimited chunk. -/
def newlinePage : PageData :=
  { bodyText := some "First line\nsecond part here"
    authorText := none
    media := noMedia
    parsedDate := none }

/-- C9, counterexample: in src/unnamed/part_000 an empty successfully
extracted paragraph list (an empty body) yields the summary "..." rather
than the empty string; and the source splits on single spaces only, not
on whitespace: a body with an internal newline keeps the newline inside
one token of the summary, where the claimed whitespace tokenisation
would join the words with spaces. -/
theorem C9_counterexample :
    (assemblePart candEx emptyParasPageP "cid0004" "2026-10-11T12:00:00.000Z").summary = "..." ∧
    ("..." : String) ≠ "" ∧
    (assembleIndex candEx newlinePage "cid0004").summary = "First line\nsecond part here..." ∧
    specSummary "First line\nsecond part here" = "First line second part here..." ∧
    ("First line\nsecond part here..." : String) ≠ "First line second part here..." := by
  refine ⟨by decide, by decide, by decide, by decide, by decide⟩

/-- C9, amended: the summary is a pure function of the raw extracted
text — records assembled from pages with the same extracted body text
have the same summary, whatever their other fields — namely the first 25
single-space-delimited chunks joined with spaces plus an ellipsis; in
index.js an empty body yields the empty summary, while in part_000 a
successfully extracted empty paragraph list yields "..." (only a failed
extraction yields the empty summary). -/
theorem C9_summary (e1 e2 : Cand) (p1 p2 : PageData) (id1 id2 : String)
    (hb : p1.bodyText = p2.bodyText) :
    (assembleIndex e1 p1 id1).summary = (assembleIndex e2 p2 id2).summary ∧
    (∀ e p id, (assembleIndex e p id).summary = spaceSummary (p.bodyText.getD "")) ∧
    spaceSummary "" = "" ∧
    (∀ e ps a m id now,
      (assemblePart e { paragraphs := some ps, authorText := a, media := m } id now).summary
        = partSummary ps) := by
  refine ⟨?_, fun e p id => rfl, by decide, fun e ps a m id now => rfl⟩
  show spaceSummary (p1.bodyText.getD "") = spaceSummary (p2.bodyText.getD "")
  rw [hb]

/-- C9, witness for the amended theorem: two pages with the same body
text but different entries, bylines, dates and ids share the summary. -/
theorem C9_summary_witness :
    (assembleIndex candEx
        { bodyText := some "Alpha beta", authorText := none, media := noMedia,
          parsedDate := none } "cidA").summary
      = (assembleIndex
          { headline := "Other", link := "https://www.bbc.com/news/b", slug := "other" }
          { bodyText := some "Alpha beta", authorText := some "Jane Doe", media := noMedia,
            parsedDate := some "2024-01-01T00:00:00.000Z" } "cidB").summary :=
  (C9_summary candEx
    { headline := "Other", link := "https://www.bbc.com/news/b", slug := "other" }
    { bodyText := some "Alpha beta", authorText := none, media := noMedia, parsedDate := none }
    { bodyText := some "Alpha beta", authorText := some "Jane Doe", media := noMedia,
      parsedDate := some "2024-01-01T00:00:00.000Z" }
    "cidA" "cidB" rfl).1

/-! Lemmas on the retry loop and the persistence sweep. -/

theorem retryFrom_attempts_le (e : Cand) (ids : Nat → String) (out : Nat → AttemptOutcome) :
    ∀ fuel a, (retryFrom e ids out fuel a).2 ≤ a + fuel := by
  intro fuel
  induction fuel with
  | zero => intro a; simp [retryFrom]
  | succ n ih =>
    intro a
    simp only [retryFrom]
    cases hA : attemptResult e (ids (a + 1)) (out (a + 1)) with
    | some r =>
      show a + 1 ≤ a + (n + 1)
      omega
    | none => exact le_trans (ih (a + 1)) (by omega)

theorem retryFrom_all_fail_none (e : Cand) (ids : Nat → String) (out : Nat → AttemptOutcome)
    (hfail : ∀ n, attemptResult e (ids n) (out n) = none) :
    ∀ fuel a, (retryFrom e ids out fuel a).1 = none := by
  intro fuel
  induction fuel with
  | zero => intro a; rfl
  | succ n ih =>
    intro a
    simp only [retryFrom, hfail]
    exact ih (a + 1)

theorem retryFrom_some_resource (e : Cand) (ids : Nat → String) (out : Nat → AttemptOutcome) :
    ∀ fuel a r, (retryFrom e ids out fuel a).1 = some r → r.resource = "BBC News" := by
  intro fuel
  induction fuel with
  | zero => intro a r h; simp [retryFrom] at h
  | succ n ih =>
    intro a r h
    simp only [retryFrom] at h
    cases hO : out (a + 1) with
    | navFail =>
      rw [hO] at h
      simp only [attemptResult] at h
      exact ih (a + 1) r h
    | insertFail p =>
      rw [hO] at h
      simp only [attemptResult] at h
      exact ih (a + 1) r h
    | ok p =>
      rw [hO] at h
      simp only [attemptResult] at h
      rw [← Option.some.inj h]
      rfl

theorem runBatch_resource (cands : List Cand) (ids : Cand → Nat → String)
    (out : Cand → Nat → AttemptOutcome) (r : ArticleRecord)
    (h : r ∈ runBatch cands ids out) : r.resource = "BBC News" := by
  obtain ⟨c, _, hr⟩ := List.mem_filterMap.mp h
  exact retryFrom_some_resource c (ids c) (out c) maxAttempts 0 r hr

theorem filter_sweep_then_keep (l : List ArticleRecord) :
    (l.filter (fun r => r.resource != "BBC News")).filter
      (fun r => r.resource == "BBC News") = [] := by
  induction l with
  | nil => rfl
  | cons a t ih =>
    by_cases h : a.resource = "BBC News"
    · simp [List.filter_cons, h, ih]
    · simp [List.filter_cons, h, ih]

theorem runBatch_filter_keep (cands : List Cand) (ids : Cand → Nat → String)
    (out : Cand → Nat → AttemptOutcome) :
    (runBatch cands ids out).filter (fun r => r.resource == "BBC News")
      = runBatch cands ids out :=
  List.filter_eq_self.mpr (fun r hr => by simp [runBatch_resource cands ids out r hr])

/-- C3: the retry loop of one candidate makes at most maxAttempts (3)
attempts, and when every attempt fails (no navigation-and-insert ever
succeeds within the ceiling) no record of that candidate is produced and
the batch over the remaining candidates is exactly the batch without it:
the candidate is skipped and its failure does not abort the run. -/
theorem C3_bounded_retry_skip (e : Cand) (rest : List Cand)
    (ids : Cand → Nat → String) (out : Cand → Nat → AttemptOutcome) :
    (processEntry e (ids e) (out e)).2 ≤ maxAttempts ∧
    ((∀ n, attemptResult e (ids e n) (out e n) = none) →
      (processEntry e (ids e) (out e)).1 = none ∧
      runBatch (e :: rest) ids out = runBatch rest ids out) := by
  constructor
  · have h := retryFrom_attempts_le e (ids e) (out e) maxAttempts 0
    simpa [processEntry] using h
  · intro hfail
    have h1 : (processEntry e (ids e) (out e)).1 = none :=
      retryFrom_all_fail_none e (ids e) (out e) hfail maxAttempts 0
    exact ⟨h1, by simp [runBatch, List.filterMap_cons, h1]⟩

/-- C3, witness: a candidate whose navigation always fails uses at most
3 attempts, and the batch of that candidate followed by nothing equals
the empty batch. -/
theorem C3_bounded_retry_skip_witness :
    (processEntry candEx (fun _ => "cid0005") (fun _ => AttemptOutcome.navFail)).2 ≤ maxAttempts ∧
    runBatch [candEx] (fun _ _ => "cid0005") (fun _ _ => AttemptOutcome.navFail)
      = runBatch [] (fun _ _ => "cid0005") (fun _ _ => AttemptOutcome.navFail) := by
  have h := C3_bounded_retry_skip candEx [] (fun _ _ => "cid0005")
    (fun _ _ => AttemptOutcome.navFail)
  exact ⟨h.1, (h.2 (fun n => rfl)).2⟩

/-- C4: the delete-by-resource sweep runs before the run's inserts, so
after running the whole job twice in succession the rows tagged with the
run's resource value are exactly the second run's records — no residue
of the first run and no accumulated duplicates. -/
theorem C4_idempotent (db : List ArticleRecord) (c1 c2 : List Cand)
    (i1 i2 : Cand → Nat → String) (o1 o2 : Cand → Nat → AttemptOutcome) :
    (runJob (runJob db c1 i1 o1) c2 i2 o2).filter (fun r => r.resource == "BBC News")
      = runBatch c2 i2 o2 := by
  simp only [runJob]
  rw [List.filter_append, filter_sweep_then_keep, List.nil_append, runBatch_filter_keep]
